import Mathlib

/-!
Verification of the EduNex chatbot proxy (a Next.js app exposing two LLM
proxy routes).  The source consists of four modules in one file:

* a Groq route handler (`POST /api/ai/groq`, lines 3-102),
* a Gemini route handler with runtime model discovery (lines 165-306),
* a client-side dispatcher `aiReply` (lines 316-356), and
* a direct-from-client Groq helper `groqReply` (lines 361-397).

The modules are shallowly embedded below.  Effectful steps (the inbound
body parse, the environment credential lookup, and each outbound HTTP
fetch) are modelled as explicit inputs: a `ReqBody` for the parsed body, an
`Option String` for the credential, and a `FetchOut` for each fetch's
outcome.  JavaScript runtime values flowing through the handlers are
modelled by the `JVal` type together with JS-faithful truthiness, property
access, `JSON.stringify` and string-interpolation helpers.
-/

set_option maxRecDepth 8192

namespace EduNex

/-- JSON-like JavaScript runtime values as they occur in the handlers
(results of `JSON.parse` and bodies passed to `NextResponse.json`).
Objects are association lists; the handlers never produce duplicate keys. -/
inductive JVal where
  | jnull : JVal
  | jbool : Bool → JVal
  | jnum  : Int → JVal
  | jstr  : String → JVal
  | jarr  : List JVal → JVal
  | jobj  : List (String × JVal) → JVal

/-- Key lookup in an object's field list (first match; the modelled
objects have no duplicate keys). -/
def lookupField : List (String × JVal) → String → Option JVal
  | [], _ => none
  | (a, v) :: t, k => if a == k then some v else lookupField t k

/-- Optional-chaining property access `v?.k`: `none` models JavaScript
`undefined`.  Non-objects have no named properties relevant here. -/
def jfield : JVal → String → Option JVal
  | JVal.jobj fs, k => lookupField fs k
  | _, _ => none

/-- Optional-chaining index access `v?.[i]`.  JavaScript string indexing
yields a one-character string, mirrored here. -/
def jindex : JVal → Nat → Option JVal
  | JVal.jarr l, i => l.get? i
  | JVal.jstr s, i => (s.toList.get? i).map (fun c => JVal.jstr (String.mk [c]))
  | _, _ => none

/-- JavaScript truthiness of a defined value (`false`, `0`, `""` and
`null` are falsy; objects and arrays are truthy). -/
def jsTruthy : JVal → Bool
  | JVal.jnull => false
  | JVal.jbool b => b
  | JVal.jnum n => !(n == 0)
  | JVal.jstr s => !(s == "")
  | JVal.jarr _ => true
  | JVal.jobj _ => true

/-- Truthiness of a possibly-undefined value (`undefined` is falsy). -/
def jsTruthyOpt : Option JVal → Bool
  | some v => jsTruthy v
  | none => false

/-- The JavaScript `a || b` operator on a possibly-undefined `a`. -/
def jsOrElse (a : Option JVal) (b : JVal) : JVal :=
  match a with
  | some v => if jsTruthy v then v else b
  | none => b

mutual

/-- JavaScript string conversion (template-literal interpolation and
`String(x)`): strings pass through, objects print `[object Object]`,
arrays join their members with commas (`null` members print empty). -/
def jsToString : JVal → String
  | JVal.jnull => "null"
  | JVal.jbool b => cond b "true" "false"
  | JVal.jnum n => toString n
  | JVal.jstr s => s
  | JVal.jobj _ => "[object Object]"
  | JVal.jarr l => jsArrJoin l

/-- Array `toString`: comma-joined member conversions. -/
def jsArrJoin : List JVal → String
  | [] => ""
  | [JVal.jnull] => ""
  | [v] => jsToString v
  | JVal.jnull :: t => "," ++ jsArrJoin t
  | v :: t => jsToString v ++ "," ++ jsArrJoin t

end

/-- Escape a character for a JSON string literal (quotes and backslashes;
the modelled payloads contain no control characters). -/
def escChar (c : Char) : String :=
  if c == '\"' then "\\\"" else if c == '\\' then "\\\\" else String.mk [c]

/-- Escape a string for inclusion in `JSON.stringify` output. -/
def escapeJson (s : String) : String :=
  String.join (s.toList.map escChar)

mutual

/-- The `JSON.stringify` serialization of a value. -/
def jstringify : JVal → String
  | JVal.jnull => "null"
  | JVal.jbool b => cond b "true" "false"
  | JVal.jnum n => toString n
  | JVal.jstr s => "\"" ++ escapeJson s ++ "\""
  | JVal.jarr l => "[" ++ jstrArr l ++ "]"
  | JVal.jobj fs => "\x7b" ++ jstrObj fs ++ "\x7d"

/-- Serialize array members, comma-separated. -/
def jstrArr : List JVal → String
  | [] => ""
  | [v] => jstringify v
  | v :: vs => jstringify v ++ "," ++ jstrArr vs

/-- Serialize object fields, comma-separated. -/
def jstrObj : List (String × JVal) → String
  | [] => ""
  | [(k, v)] => "\"" ++ escapeJson k ++ "\":" ++ jstringify v
  | (k, v) :: t => "\"" ++ escapeJson k ++ "\":" ++ jstringify v ++ "," ++ jstrObj t

end

/-- Character-list version of JavaScript `String.prototype.startsWith`. -/
def chPre : List Char → List Char → Bool
  | [], _ => true
  | _ :: _, [] => false
  | a :: as, b :: bs => a == b && chPre as bs

/-- Character-list version of JavaScript `String.prototype.includes`. -/
def chSub (needle : List Char) : List Char → Bool
  | [] => needle.isEmpty
  | c :: t => chPre needle (c :: t) || chSub needle t

/-- JavaScript `hay.includes(needle)`. -/
def strContains (hay needle : String) : Bool :=
  chSub needle.toList hay.toList

/-- JavaScript `name.toLowerCase()` (character-wise lower-casing). -/
def strLower (s : String) : String :=
  String.mk (s.toList.map Char.toLower)

/-- JavaScript `array.includes(s)` for a string argument: SameValueZero
comparison succeeds only against equal string members. -/
def includesStr (l : List JVal) (s : String) : Bool :=
  l.any (fun v => match v with | JVal.jstr t => t == s | _ => false)

/-- Outcome of one outbound `fetch` (plus the following `res.text()` /
`JSON.parse` steps, which the handlers always perform in that order):
either the promise rejected — `thrown msg` carries the error's `message`
when that message is truthy — or a response arrived with an HTTP status,
a raw body text, and `parsed` the result of `JSON.parse` on that text
(`none` when parsing would throw). -/
inductive FetchOut where
  | thrown : Option String → FetchOut
  | resp : Nat → String → Option JVal → FetchOut

/-- Outcome of `await req.json()` on the inbound request: the parse threw
(`badJson`), or it produced a body whose `body?.prompt` is the given
possibly-undefined value. -/
inductive ReqBody where
  | badJson : ReqBody
  | ok : Option JVal → ReqBody

/-- Outbound calls a handler can issue, for tracking which upstream
endpoints are consulted during one request. -/
inductive CallTag where
  | listV1 : CallTag
  | listV1beta : CallTag
  | generate : CallTag
  | groqChat : CallTag
deriving DecidableEq

/-- The guard `if (!prompt || typeof prompt !== "string")` shared by both
route handlers: the request proceeds exactly when `body?.prompt` is a
non-empty string, returned here. -/
def promptOkStr : Option JVal → Option String
  | some (JVal.jstr s) => if s == "" then none else some s
  | _ => none

/-- The guard `if (!key)` on a credential read from the environment:
present means defined and non-empty (JS truthiness of a string). -/
def keyPresent : Option String → Bool
  | some s => !(s == "")
  | none => false

/-- The `Response.ok` accessor: status in the 2xx range. -/
def resOk (s : Nat) : Bool :=
  decide (200 ≤ s) && decide (s < 300)

/-- The `res.status || 502` fallback used for empty/invalid upstream
bodies: a falsy (zero) status becomes 502. -/
def statusOr502 (s : Nat) : Nat :=
  if s == 0 then 502 else s

/-- A `NextResponse.json({error: m}, {status: s})` error envelope. -/
def errResp (s : Nat) (m : String) : Nat × JVal :=
  (s, JVal.jobj [("error", JVal.jstr m)])

/-! ## Groq route handler (`src/app/api/ai/groq/route.ts` lines 3-102) -/

/-- The route's `json?.error?.message || json?.error ||
(typeof json === "string" ? json : JSON.stringify(json))` extraction
(lines 76-79). -/
def groqErrVal (json : JVal) : JVal :=
  jsOrElse (jfield json "error" >>= fun e => jfield e "message")
    (jsOrElse (jfield json "error")
      (match json with
       | JVal.jstr s => JVal.jstr s
       | v => JVal.jstr (jstringify v)))

/-- The answer extraction `json?.choices?.[0]?.message?.content || ""`
(line 86; the same expression occurs in `groqReply`, line 395). -/
def groqText (json : JVal) : JVal :=
  jsOrElse
    (jfield json "choices" >>= fun c => jindex c 0 >>= fun h =>
      jfield h "message" >>= fun mm => jfield mm "content")
    (JVal.jstr "")

/-- The success tail of the Groq route (lines 86-95): empty extracted
content is a 500 error, otherwise a `{text, provider: "groq"}` body. -/
def groqSuccess (json : JVal) : Nat × JVal :=
  if !(jsTruthy (groqText json)) then errResp 500 "Groq response had no content"
  else (200, JVal.jobj [("text", groqText json), ("provider", JVal.jstr "groq")])

/-- The Groq route's handling of its single upstream call (lines 24-101):
a rejected fetch reaches the outer `catch` (lines 96-101); otherwise the
body is read as text, checked non-empty, JSON-decoded, checked for HTTP
failure, and the answer extracted. -/
def groqUpstream (f : FetchOut) : Nat × JVal :=
  match f with
  | FetchOut.thrown m => errResp 500 (m.getD "Groq route failed")
  | FetchOut.resp st raw parsed =>
    if raw == "" then
      errResp (statusOr502 st) ("Groq returned empty response (" ++ toString st ++ ")")
    else
      match parsed with
      | none =>
        errResp (statusOr502 st)
          ("Groq returned invalid JSON (" ++ toString st ++ "): " ++ raw.take 200)
      | some json =>
        if !(resOk st) then
          errResp st ("Groq API Error (" ++ toString st ++ "): " ++ jsToString (groqErrVal json))
        else groqSuccess json

/-- The Groq route handler `POST` (lines 3-102), as a function of the
parsed inbound body, the `GROQ_API_KEY` environment value, and the
outcome of the one outbound chat-completions call.  Returns the response
(status and JSON body) paired with the outbound calls issued. -/
def groqRoute (body : ReqBody) (key : Option String) (f : FetchOut) :
    (Nat × JVal) × List CallTag :=
  match body with
  | ReqBody.badJson => (errResp 400 "Invalid request body", [])
  | ReqBody.ok p =>
    match promptOkStr p with
    | none => (errResp 400 "Missing prompt", [])
    | some _ =>
      if !(keyPresent key) then (errResp 500 "GROQ_API_KEY not configured", [])
      else (groqUpstream f, [CallTag.groqChat])

/-! ## Gemini route handler (lines 165-306) with `listModels` (119-147)
and `pickGenerateContentModel` (149-163) -/

/-- A model entry as typed in the source (`ListedModel`).  Entries whose
JSON lacks a string `name` are decoded with an empty name; in JS such an
entry would only matter by throwing inside the sort comparator, a shape
no claim exercises. -/
structure ListedModel where
  name : String
  supportedGenerationMethods : Option (List JVal)

/-- The capability filter: `Array.isArray(m.supportedGenerationMethods) &&
m.supportedGenerationMethods.includes("generateContent")` (lines 151-152). -/
def supportsGenerate (m : ListedModel) : Bool :=
  match m.supportedGenerationMethods with
  | some l => includesStr l "generateContent"
  | none => false

/-- The 3-tier ranking (lines 154-159): lower-cased name containing
"flash" is tier 1, containing "pro" is tier 2, anything else tier 3. -/
def byPriority (name : String) : Nat :=
  if strContains (strLower name) "flash" then 1
  else if strContains (strLower name) "pro" then 2
  else 3

/-- Stable insertion of a model into a priority-sorted list: `x` goes
before the first element of priority `≥` its own, so equal-priority
elements keep their original relative order. -/
def stInsert (x : ListedModel) : List ListedModel → List ListedModel
  | [] => [x]
  | y :: ys =>
    if byPriority y.name < byPriority x.name then y :: stInsert x ys
    else x :: y :: ys

/-- Stable insertion sort by `byPriority`, modelling the JS
`filtered.sort((a, b) => byPriority(a.name) - byPriority(b.name))`
(`Array.prototype.sort` is stable per ECMA-262, and for this consistent
comparator any stable sort produces the same list). -/
def stSort : List ListedModel → List ListedModel
  | [] => []
  | x :: xs => stInsert x (stSort xs)

/-- The model selector (lines 149-163): filter to generation-capable
models, stable-sort by priority, return the first (`filtered[0] || null`). -/
def pickGenerateContentModel (models : List ListedModel) : Option ListedModel :=
  (stSort (models.filter supportsGenerate)).head?

/-- Decode one entry of `data.models` into the shape the route reads. -/
def decodeListedModel (v : JVal) : ListedModel :=
  { name := match jfield v "name" with
      | some (JVal.jstr s) => s
      | _ => ""
    supportedGenerationMethods := match jfield v "supportedGenerationMethods" with
      | some (JVal.jarr l) => some l
      | _ => none }

/-- The `Array.isArray(data.models) ? data.models : []` read (line 142). -/
def decodeModels : Option JVal → List ListedModel
  | some (JVal.jarr l) => l.map decodeListedModel
  | _ => []

/-- Result of `listModels`: the model list plus an optional error string. -/
structure LRes where
  models : List ListedModel
  error : Option String

/-- Interpolation `${e?.message || e}` of a caught error: its message
when truthy, else the `String()` conversion of a message-less `Error`. -/
def errStr (m : Option String) : String :=
  m.getD "Error"

/-- The `listModels` helper (lines 119-147) as a function of its fetch's
outcome.  All failures are caught internally and returned as an error
string beside an empty model list; note the invalid-JSON branch truncates
the raw body to 120 characters (line 134). -/
def listModels (version : String) (f : FetchOut) : LRes :=
  match f with
  | FetchOut.thrown m =>
    LRes.mk [] (some ("ListModels fetch failed for " ++ version ++ ": " ++ errStr m))
  | FetchOut.resp st raw parsed =>
    if raw == "" then
      LRes.mk [] (some ("ListModels empty response (" ++ toString st ++ ") for " ++ version))
    else
      match parsed with
      | none =>
        LRes.mk [] (some ("ListModels invalid JSON (" ++ toString st ++ ") for " ++ version
          ++ ": " ++ raw.take 120))
      | some data =>
        if !(resOk st) then
          LRes.mk [] (some ("ListModels API error (" ++ toString st ++ ") for " ++ version
            ++ ": " ++ jsToString (jsOrElse
                (jfield data "error" >>= fun e => jfield e "message")
                (JVal.jstr (jstringify data)))))
        else LRes.mk (decodeModels (jfield data "models")) none

/-- One reason entry `cond ? "tag: " + err : ""` of the aggregate
no-model message (lines 206-208). -/
def reasonTag (tag : String) (e : Option String) : String :=
  match e with
  | some s => if s == "" then "" else tag ++ s
  | none => ""

/-- The `models.map(m => m.name).join(", ") || "none"` rendering of a
model-name list (lines 209-210). -/
def namesOrNone (ms : List ListedModel) : String :=
  if String.intercalate ", " (ms.map (fun m => m.name)) == "" then "none"
  else String.intercalate ", " (ms.map (fun m => m.name))

/-- The aggregated discovery-failure message (lines 205-224): non-empty
reasons joined by " | " after the fixed explanation text. -/
def noModelMsg (v1L v1bL : LRes) : String :=
  "No Gemini models supporting generateContent were found for your project in v1 or v1beta. "
  ++ "Ensure the API key is from a Google Cloud project with Generative Language API enabled and model access. "
  ++ "Details: "
  ++ String.intercalate " | "
      (([reasonTag "v1: " v1L.error,
         reasonTag "v1beta: " v1bL.error,
         "v1 models (" ++ toString v1L.models.length ++ "): " ++ namesOrNone v1L.models,
         "v1beta models (" ++ toString v1bL.models.length ++ "): " ++ namesOrNone v1bL.models
        ]).filter (fun s => !(s == "")))

/-- The namespace stripping for the generate endpoint (line 230):
`name.startsWith("models/") ? name.replace(/^models\//, "") : name`. -/
def bareModelOf (name : String) : String :=
  if chPre "models/".toList name.toList then name.drop 7 else name

/-- The Gemini route's `data?.error?.message || data?.message ||
(typeof data === "string" ? data : JSON.stringify(data))` extraction
(lines 275-278) — note the second probe is a top-level `message` field. -/
def geminiErrVal (data : JVal) : JVal :=
  jsOrElse (jfield data "error" >>= fun e => jfield e "message")
    (jsOrElse (jfield data "message")
      (match data with
       | JVal.jstr s => JVal.jstr s
       | v => JVal.jstr (jstringify v)))

/-- The answer extraction (lines 285-290): the first candidate's
`content.parts`, each part's string `text` kept, empties filtered out,
joined by newlines; any missing link yields `""` via `|| ""`.  (A
non-array `parts` member would throw in JS and reach the outer catch; no
claim exercises that shape.) -/
def geminiAnswer (data : JVal) : String :=
  match (jfield data "candidates" >>= fun c => jindex c 0) >>= fun cand =>
        jfield cand "content" >>= fun ct => jfield ct "parts" with
  | some (JVal.jarr l) =>
    joinNL ((l.map (fun p =>
        match jfield p "text" with
        | some (JVal.jstr s) => s
        | _ => "")).filter (fun s => !(s == "")))
  | _ => ""
where
  /-- The `array.join("\n")` used on the kept part texts. -/
  joinNL : List String → String
    | [] => ""
    | [s] => s
    | s :: t => s ++ "\n" ++ joinNL t

/-- The generate phase of the Gemini route (lines 246-305): the §4.1-style
parse of the generateContent response for the selected `version`/`bare`
model, with a rejected fetch reaching the outer catch (lines 300-305). -/
def geminiGen (version bare : String) (f : FetchOut) : Nat × JVal :=
  match f with
  | FetchOut.thrown m => errResp 500 (m.getD "Gemini route failed")
  | FetchOut.resp st raw parsed =>
    if raw == "" then
      errResp (statusOr502 st)
        ("Gemini " ++ version ++ "/" ++ bare ++ " returned empty response (" ++ toString st ++ ")")
    else
      match parsed with
      | none =>
        errResp (statusOr502 st)
          ("Gemini " ++ version ++ "/" ++ bare ++ " returned invalid JSON ("
            ++ toString st ++ "): " ++ raw.take 200)
      | some data =>
        if !(resOk st) then
          errResp st ("Gemini API Error (" ++ version ++ "/" ++ bare ++ " - "
            ++ toString st ++ "): " ++ jsToString (geminiErrVal data))
        else
          if geminiAnswer data == "" then
            errResp 500 ("Gemini " ++ version ++ "/" ++ bare ++ " response had no content")
          else
            (200, JVal.jobj [("text", JVal.jstr (geminiAnswer data)),
                             ("provider", JVal.jstr "gemini"),
                             ("model", JVal.jstr bare),
                             ("version", JVal.jstr version)])

/-- Selection and generation (lines 202-305).  The source computes
`chosenV1`, then `chosenV1beta` only when `chosenV1` is null, fails when
both are null, and otherwise generates against the version that produced
the winner; this match expresses exactly that. -/
def gphase3 (v1List v1betaList : LRes) (calls0 : List CallTag) (gen : FetchOut) :
    (Nat × JVal) × List CallTag :=
  match pickGenerateContentModel v1List.models with
  | some m => (geminiGen "v1" (bareModelOf m.name) gen, calls0 ++ [CallTag.generate])
  | none =>
    match pickGenerateContentModel v1betaList.models with
    | some m => (geminiGen "v1beta" (bareModelOf m.name) gen, calls0 ++ [CallTag.generate])
    | none => (errResp 502 (noModelMsg v1List v1betaList), calls0)

/-- The two-tier listing (lines 198-200): `v1beta` is fetched exactly when
the `v1` listing produced zero models, otherwise it is replaced by the
literal `{ models: [], error: undefined }`. -/
def gphase2 (v1List : LRes) (lv1b gen : FetchOut) : (Nat × JVal) × List CallTag :=
  if v1List.models.length == 0 then
    gphase3 v1List (listModels "v1beta" lv1b) [CallTag.listV1, CallTag.listV1beta] gen
  else
    gphase3 v1List (LRes.mk [] none) [CallTag.listV1] gen

/-- The Gemini route handler `POST` (lines 165-306), as a function of the
parsed inbound body, the `GEMINI_API_KEY` environment value, and the
outcomes the two listing fetches and the generate fetch would produce. -/
def geminiRoute (body : ReqBody) (key : Option String) (lv1 lv1b gen : FetchOut) :
    (Nat × JVal) × List CallTag :=
  match body with
  | ReqBody.badJson => (errResp 400 "Invalid request body", [])
  | ReqBody.ok p =>
    match promptOkStr p with
    | none => (errResp 400 "Missing prompt", [])
    | some _ =>
      if !(keyPresent key) then
        (errResp 500 "GEMINI_API_KEY is not configured on the server", [])
      else gphase2 (listModels "v1" lv1) lv1b gen

/-! ## Client dispatcher `aiReply` (lines 316-356) -/

/-- The client-side prompt boilerplate `wrapForNilgiri` (lines 308-314). -/
def wrapForNilgiri (prompt : String) : String :=
  "The user is asking about Nilgiri College of Arts and Science, Thaloor, The Nilgiris, Tamil Nadu, India. "
  ++ "Please answer accordingly.\n\n" ++ prompt

/-- The client dispatcher `aiReply` (lines 316-356) as a function of the
provider tag and its one fetch's outcome; thrown JS errors are modelled
as `Except.error` of their message.  A rejected fetch is wrapped as
`"Failed to connect to <provider>: <cause>"` (lines 329-331). -/
def aiReply (provider : String) (f : FetchOut) : Except String (JVal × String) :=
  match f with
  | FetchOut.thrown m =>
    Except.error ("Failed to connect to " ++ provider ++ ": " ++ m.getD "Network error")
  | FetchOut.resp st raw parsed =>
    if raw == "" then
      Except.error (provider ++ " returned empty response (" ++ toString st ++ ")")
    else
      match parsed with
      | none =>
        Except.error (provider ++ " returned invalid JSON (" ++ toString st ++ "): "
          ++ raw.take 200)
      | some json =>
        if !(resOk st) || jsTruthyOpt (jfield json "error") then
          Except.error (jsToString (jsOrElse (jfield json "error")
            (JVal.jstr (provider ++ " API error (" ++ toString st ++ ")"))))
        else if !(jsTruthyOpt (jfield json "text")) then
          Except.error (provider ++ " returned empty response")
        else
          Except.ok ((jfield json "text").getD JVal.jnull, provider)

/-! ## Direct-from-client `groqReply` (lines 357-397) -/

/-- The `json?.error?.message || json?.error || JSON.stringify(json)`
extraction of `groqReply` (line 391). -/
def groqReplyErrVal (json : JVal) : JVal :=
  jsOrElse (jfield json "error" >>= fun e => jfield e "message")
    (jsOrElse (jfield json "error") (JVal.jstr (jstringify json)))

/-- The direct-from-client `groqReply` (lines 361-397) as a function of
the `NEXT_PUBLIC_GROQ_API_KEY` value and its fetch's outcome.  It has no
try/catch around the fetch, so a rejection propagates unwrapped (modelled
as `Except.error` of the cause); and on a successful call with empty
extracted content it RESOLVES with the placeholder
`"No response from Groq."` (lines 395-396) instead of throwing. -/
def groqReply (key : Option String) (f : FetchOut) : Except String JVal :=
  if !(keyPresent key) then Except.error "Missing NEXT_PUBLIC_GROQ_API_KEY"
  else
    match f with
    | FetchOut.thrown m => Except.error (errStr m)
    | FetchOut.resp st raw parsed =>
      if raw == "" then
        Except.error ("Groq returned empty response (" ++ toString st ++ ")")
      else
        match parsed with
        | none =>
          Except.error ("Groq returned invalid JSON (" ++ toString st ++ "): " ++ raw.take 200)
        | some json =>
          if !(resOk st) then
            Except.error ("Groq error (" ++ toString st ++ "): "
              ++ jsToString (groqReplyErrVal json))
          else
            if jsTruthy (groqText json) then Except.ok (groqText json)
            else Except.ok (JVal.jstr "No response from Groq.")

/-! ## Spec-side characterization and observation helpers -/

/-- Modelled from the spec's ranking description (§4.2 Select): the first
listed model attaining the minimal priority tier — "rank by a 3-tier
priority … ties broken by original listing order … pick tier-1 minimum".
Stated independently of the source's sort so the two can be compared. -/
def firstMinPriority : List ListedModel → Option ListedModel
  | [] => none
  | x :: xs =>
    match firstMinPriority xs with
    | none => some x
    | some y => if byPriority y.name < byPriority x.name then some y else some x

/-- Whether a JSON object body carries the given field. -/
def hasField (v : JVal) (k : String) : Bool :=
  (jfield v k).isSome

/-- A response body is a well-formed envelope: exactly one of an `error`
field or a `text` field. -/
def envelopeOk (b : JVal) : Prop :=
  (hasField b "error" = true ∧ hasField b "text" = false)
  ∨ (hasField b "text" = true ∧ hasField b "error" = false)

/-- Whether a handler response's body has an `error` field equal to the
given string. -/
def errMsgIs (r : (Nat × JVal) × List CallTag) (s : String) : Bool :=
  match jfield r.1.2 "error" with
  | some (JVal.jstr t) => t == s
  | _ => false

/-! ## Concrete inputs used by witnesses and counterexamples -/

/-- The spec's ranking example: three models, all generation-capable. -/
def demoModels : List ListedModel :=
  [ListedModel.mk "models/foo-pro" (some [JVal.jstr "generateContent"]),
   ListedModel.mk "models/bar-flash" (some [JVal.jstr "generateContent"]),
   ListedModel.mk "models/baz" (some [JVal.jstr "generateContent"])]

/-- The expected winner of the spec's ranking example. -/
def demoFlash : ListedModel :=
  ListedModel.mk "models/bar-flash" (some [JVal.jstr "generateContent"])

/-- A v1 listing fetch whose body lists one model that does not support
`generateContent`: a non-empty listing with no eligible model. -/
def v1OnlyEmbedFetch : FetchOut :=
  FetchOut.resp 200 "x" (some (JVal.jobj [("models", JVal.jarr
    [JVal.jobj [("name", JVal.jstr "models/embedding-001"),
                ("supportedGenerationMethods", JVal.jarr [JVal.jstr "embedContent"])]])]))

/-- An arbitrary fetch outcome for positions a run never consults. -/
def anyFetch : FetchOut :=
  FetchOut.thrown none

/-- A 201-character raw body, longer than every truncation bound used. -/
def raw201 : String :=
  String.mk (List.replicate 201 'a')

/-- An upstream Groq-shaped success body with the given content string:
`{choices: [{message: {content: c}}]}`. -/
def stubChoices (c : String) : JVal :=
  JVal.jobj [("choices", JVal.jarr
    [JVal.jobj [("message", JVal.jobj [("content", JVal.jstr c)])]])]

/-- An upstream error body `{error: {message: "bad key"}}`. -/
def badKeyJson : JVal :=
  JVal.jobj [("error", JVal.jobj [("message", JVal.jstr "bad key")])]

/-! ## Helper lemmas -/

theorem stInsert_head (x y : ListedModel) (ys : List ListedModel) :
    (stInsert x (y :: ys)).head? =
      if byPriority y.name < byPriority x.name then some y else some x := by
  unfold stInsert
  split <;> rfl

theorem stSort_head (l : List ListedModel) :
    (stSort l).head? = firstMinPriority l := by
  induction l with
  | nil => rfl
  | cons x xs ih =>
    show (stInsert x (stSort xs)).head? = firstMinPriority (x :: xs)
    unfold firstMinPriority
    rw [← ih]
    cases h : stSort xs with
    | nil => rfl
    | cons y ys => rw [stInsert_head]; rfl

theorem firstMinPriority_mem (l : List ListedModel) (m : ListedModel)
    (h : firstMinPriority l = some m) : m ∈ l := by
  induction l with
  | nil => cases h
  | cons x xs ih =>
    unfold firstMinPriority at h
    cases hx : firstMinPriority xs with
    | none =>
      simp only [hx] at h
      injection h with h
      subst h
      exact List.mem_cons_self x xs
    | some y =>
      simp only [hx] at h
      by_cases hc : byPriority y.name < byPriority x.name
      · rw [if_pos hc] at h
        injection h with h
        subst h
        exact List.mem_cons_of_mem x (ih hx)
      · rw [if_neg hc] at h
        injection h with h
        subst h
        exact List.mem_cons_self x xs

theorem envOk_errResp (s : Nat) (m : String) : envelopeOk (errResp s m).2 :=
  Or.inl ⟨rfl, rfl⟩

theorem envOk_groqSuccess (json : JVal) : envelopeOk (groqSuccess json).2 := by
  unfold groqSuccess
  split
  · exact Or.inl ⟨rfl, rfl⟩
  · exact Or.inr ⟨rfl, rfl⟩

theorem envOk_groqUpstream (f : FetchOut) : envelopeOk (groqUpstream f).2 := by
  cases f with
  | thrown m => exact envOk_errResp _ _
  | resp st raw parsed =>
    simp only [groqUpstream]
    split
    · exact envOk_errResp _ _
    · split
      · exact envOk_errResp _ _
      · split
        · exact envOk_errResp _ _
        · exact envOk_groqSuccess _

theorem envOk_geminiGen (v b : String) (f : FetchOut) :
    envelopeOk (geminiGen v b f).2 := by
  cases f with
  | thrown m => exact envOk_errResp _ _
  | resp st raw parsed =>
    simp only [geminiGen]
    split
    · exact envOk_errResp _ _
    · split
      · exact envOk_errResp _ _
      · split
        · exact envOk_errResp _ _
        · split
          · exact envOk_errResp _ _
          · exact Or.inr ⟨rfl, rfl⟩

theorem envOk_gphase3 (a b : LRes) (c : List CallTag) (g : FetchOut) :
    envelopeOk (gphase3 a b c g).1.2 := by
  unfold gphase3
  cases pickGenerateContentModel a.models with
  | some m => exact envOk_geminiGen _ _ _
  | none =>
    cases pickGenerateContentModel b.models with
    | some m => exact envOk_geminiGen _ _ _
    | none => exact envOk_errResp _ _

theorem envOk_gphase2 (v1List : LRes) (lv1b gen : FetchOut) :
    envelopeOk (gphase2 v1List lv1b gen).1.2 := by
  unfold gphase2
  split
  · exact envOk_gphase3 _ _ _ _
  · exact envOk_gphase3 _ _ _ _

/-! ## Claim theorems -/

/-- Claim C1: whenever the v1 model listing yields a non-empty model set
(for a valid prompt and configured key), the v1beta listing call is never
issued; and if additionally no v1 model supports generateContent, the
request fails with the aggregated no-model error at HTTP 502 with v1 as
the only listing consulted. -/
theorem C1_no_v1beta_fallback (p : Option JVal) (q : String) (key : Option String)
    (lv1 lv1b gen : FetchOut)
    (hp : promptOkStr p = some q) (hk : keyPresent key = true)
    (hne : (listModels "v1" lv1).models ≠ []) :
    CallTag.listV1beta ∉ (geminiRoute (ReqBody.ok p) key lv1 lv1b gen).2
    ∧ (pickGenerateContentModel (listModels "v1" lv1).models = none →
        geminiRoute (ReqBody.ok p) key lv1 lv1b gen
          = (errResp 502 (noModelMsg (listModels "v1" lv1) (LRes.mk [] none)),
             [CallTag.listV1])) := by
  have hlen : ((listModels "v1" lv1).models.length == 0) = false :=
    beq_eq_false_iff_ne.mpr (fun h0 => hne (List.length_eq_zero.mp h0))
  have hroute : geminiRoute (ReqBody.ok p) key lv1 lv1b gen
      = gphase3 (listModels "v1" lv1) (LRes.mk [] none) [CallTag.listV1] gen := by
    simp [geminiRoute, gphase2, hp, hk, hlen]
  constructor
  · rw [hroute]
    unfold gphase3
    cases hpick : pickGenerateContentModel (listModels "v1" lv1).models with
    | some m =>
      show CallTag.listV1beta ∉ [CallTag.listV1] ++ [CallTag.generate]
      decide
    | none =>
      show CallTag.listV1beta ∉ [CallTag.listV1]
      decide
  · intro hpick
    rw [hroute]
    simp only [gphase3, hpick]
    rfl

/-- Claim C1 witness: a concrete v1 listing containing only an
embedding-only model triggers the aggregated 502 failure with v1beta
never consulted. -/
theorem C1_no_v1beta_fallback_witness :
    CallTag.listV1beta ∉
      (geminiRoute (ReqBody.ok (some (JVal.jstr "hi"))) (some "k")
        v1OnlyEmbedFetch anyFetch anyFetch).2
    ∧ geminiRoute (ReqBody.ok (some (JVal.jstr "hi"))) (some "k")
        v1OnlyEmbedFetch anyFetch anyFetch
      = (errResp 502 (noModelMsg (listModels "v1" v1OnlyEmbedFetch) (LRes.mk [] none)),
         [CallTag.listV1]) := by
  have h := C1_no_v1beta_fallback (some (JVal.jstr "hi")) "hi" (some "k")
    v1OnlyEmbedFetch anyFetch anyFetch rfl rfl
    (by
      intro hc
      have hlength := congrArg List.length hc
      exact absurd hlength (by decide))
  exact ⟨h.1, h.2 rfl⟩

/-- Claim C2: model selection equals the spec's characterization — filter
to generateContent-capable models, then take the first model of minimal
3-tier priority (ties by original listing order); on the spec's example
list it picks "models/bar-flash", and a selected model always supports
generateContent. -/
theorem C2_model_ranking :
    (∀ models, pickGenerateContentModel models
        = firstMinPriority (models.filter supportsGenerate))
    ∧ pickGenerateContentModel demoModels = some demoFlash
    ∧ ∀ models m, pickGenerateContentModel models = some m →
        supportsGenerate m = true := by
  refine ⟨fun models => stSort_head _, by rfl, ?_⟩
  intro models m h
  unfold pickGenerateContentModel at h
  rw [stSort_head] at h
  exact (List.mem_filter.mp (firstMinPriority_mem _ _ h)).2

/-- Claim C2 witness: on the spec's example list the selector returns the
flash model, which supports generateContent. -/
theorem C2_model_ranking_witness :
    pickGenerateContentModel demoModels = some demoFlash
    ∧ supportsGenerate demoFlash = true :=
  ⟨C2_model_ranking.2.1, C2_model_ranking.2.2 demoModels demoFlash C2_model_ranking.2.1⟩

/-- Claim C3 as amended: on a JSON-decode failure, the Groq route, the
Gemini generate call, the client dispatcher and the direct-client Groq
helper all append exactly the first 200 characters of the raw body to
their error message — but the Gemini model-listing helper appends only
the first 120 characters. -/
theorem C3_truncation :
    (∀ st raw, raw ≠ "" →
        groqUpstream (FetchOut.resp st raw none)
          = errResp (statusOr502 st)
              ("Groq returned invalid JSON (" ++ toString st ++ "): " ++ raw.take 200))
    ∧ (∀ v b st raw, raw ≠ "" →
        geminiGen v b (FetchOut.resp st raw none)
          = errResp (statusOr502 st)
              ("Gemini " ++ v ++ "/" ++ b ++ " returned invalid JSON ("
                ++ toString st ++ "): " ++ raw.take 200))
    ∧ (∀ pr st raw, raw ≠ "" →
        aiReply pr (FetchOut.resp st raw none)
          = Except.error (pr ++ " returned invalid JSON (" ++ toString st ++ "): "
              ++ raw.take 200))
    ∧ (∀ k st raw, keyPresent k = true → raw ≠ "" →
        groqReply k (FetchOut.resp st raw none)
          = Except.error ("Groq returned invalid JSON (" ++ toString st ++ "): "
              ++ raw.take 200))
    ∧ (∀ ver st raw, raw ≠ "" →
        listModels ver (FetchOut.resp st raw none)
          = LRes.mk [] (some ("ListModels invalid JSON (" ++ toString st ++ ") for "
              ++ ver ++ ": " ++ raw.take 120))) := by
  refine ⟨?_, ?_, ?_, ?_, ?_⟩
  · intro st raw h
    simp [groqUpstream, beq_eq_false_iff_ne.mpr h]
  · intro v b st raw h
    simp [geminiGen, beq_eq_false_iff_ne.mpr h]
  · intro pr st raw h
    simp [aiReply, beq_eq_false_iff_ne.mpr h]
  · intro k st raw hk h
    simp [groqReply, hk, beq_eq_false_iff_ne.mpr h]
  · intro ver st raw h
    simp [listModels, beq_eq_false_iff_ne.mpr h]

/-- Claim C3 witness: the truncation behavior of each call site at the
concrete 201-character raw body. -/
theorem C3_truncation_witness :
    groqUpstream (FetchOut.resp 400 raw201 none)
      = errResp (statusOr502 400)
          ("Groq returned invalid JSON (" ++ toString 400 ++ "): " ++ raw201.take 200)
    ∧ geminiGen "v1" "m" (FetchOut.resp 400 raw201 none)
      = errResp (statusOr502 400)
          ("Gemini v1/m returned invalid JSON (" ++ toString 400 ++ "): " ++ raw201.take 200)
    ∧ aiReply "groq" (FetchOut.resp 400 raw201 none)
      = Except.error ("groq returned invalid JSON (" ++ toString 400 ++ "): "
          ++ raw201.take 200)
    ∧ groqReply (some "k") (FetchOut.resp 400 raw201 none)
      = Except.error ("Groq returned invalid JSON (" ++ toString 400 ++ "): "
          ++ raw201.take 200)
    ∧ listModels "v1" (FetchOut.resp 400 raw201 none)
      = LRes.mk [] (some ("ListModels invalid JSON (" ++ toString 400 ++ ") for v1: "
          ++ raw201.take 120)) := by
  refine ⟨C3_truncation.1 400 raw201 ?hne,
          ?g2, C3_truncation.2.2.1 "groq" 400 raw201 ?hne2,
          C3_truncation.2.2.2.1 (some "k") 400 raw201 rfl ?hne3,
          C3_truncation.2.2.2.2 "v1" 400 raw201 ?hne4⟩
  case g2 =>
    have h := C3_truncation.2.1 "v1" "m" 400 raw201 (by decide)
    simpa using h
  all_goals decide

/-- Claim C3 counterexample: at the model-listing call site, with a raw
body of 201 characters, the produced error message does not contain the
first 200 characters of the raw text at all (only the first 120). -/
theorem C3_counterexample :
    strContains ((listModels "v1" (FetchOut.resp 400 raw201 none)).error.getD "")
      (raw201.take 200) = false := by
  decide

/-- Claim C4 as amended: an empty extracted answer on a successful HTTP
call is a failure in the server-routed Groq handler, the Gemini handler
and the client dispatcher; but the direct-from-client `groqReply`
instead RESOLVES successfully with the placeholder text
"No response from Groq.". -/
theorem C4_empty_content :
    (∀ json, jsTruthy (groqText json) = false →
        groqSuccess json = errResp 500 "Groq response had no content")
    ∧ (∀ v b st raw json, raw ≠ "" → resOk st = true → geminiAnswer json = "" →
        geminiGen v b (FetchOut.resp st raw (some json))
          = errResp 500 ("Gemini " ++ v ++ "/" ++ b ++ " response had no content"))
    ∧ (∀ pr st raw json, raw ≠ "" → resOk st = true →
        jsTruthyOpt (jfield json "error") = false →
        jsTruthyOpt (jfield json "text") = false →
        aiReply pr (FetchOut.resp st raw (some json))
          = Except.error (pr ++ " returned empty response"))
    ∧ (∀ k st raw json, keyPresent k = true → raw ≠ "" → resOk st = true →
        jsTruthy (groqText json) = false →
        groqReply k (FetchOut.resp st raw (some json))
          = Except.ok (JVal.jstr "No response from Groq.")) := by
  refine ⟨?_, ?_, ?_, ?_⟩
  · intro json h
    simp [groqSuccess, h]
  · intro v b st raw json hraw hst hans
    simp [geminiGen, beq_eq_false_iff_ne.mpr hraw, hst, hans]
  · intro pr st raw json hraw hst herr htext
    simp [aiReply, beq_eq_false_iff_ne.mpr hraw, hst, herr, htext]
  · intro k st raw json hk hraw hst htext
    simp [groqReply, hk, beq_eq_false_iff_ne.mpr hraw, hst, htext]

/-- Claim C4 witness: concrete empty-content upstream bodies produce the
three failures, and the placeholder success at `groqReply`. -/
theorem C4_empty_content_witness :
    groqSuccess (stubChoices "") = errResp 500 "Groq response had no content"
    ∧ geminiGen "v1" "m" (FetchOut.resp 200 "x" (some (JVal.jobj [])))
      = errResp 500 "Gemini v1/m response had no content"
    ∧ aiReply "groq" (FetchOut.resp 200 "x" (some (JVal.jobj [])))
      = Except.error "groq returned empty response"
    ∧ groqReply (some "k") (FetchOut.resp 200 "x" (some (stubChoices "")))
      = Except.ok (JVal.jstr "No response from Groq.") := by
  refine ⟨C4_empty_content.1 (stubChoices "") (by decide), ?g2, ?g3,
          C4_empty_content.2.2.2 (some "k") 200 "x" (stubChoices "") rfl (by decide)
            (by decide) (by decide)⟩
  case g2 =>
    have h := C4_empty_content.2.1 "v1" "m" 200 "x" (JVal.jobj [])
      (by decide) (by decide) rfl
    simpa using h
  case g3 =>
    exact C4_empty_content.2.2.1 "groq" 200 "x" (JVal.jobj [])
      (by decide) (by decide) rfl rfl

/-- Claim C4 counterexample: the direct-from-client Groq variant, on a
successful HTTP 200 call whose extracted answer text is the empty string,
returns a SUCCESSFUL result carrying placeholder text rather than a
failure. -/
theorem C4_counterexample :
    groqReply (some "k") (FetchOut.resp 200 "x" (some (stubChoices "")))
      = Except.ok (JVal.jstr "No response from Groq.") := rfl

/-- Claim C5 as amended: only the client dispatcher wraps a transport
failure as "Failed to connect to <provider>: <cause>"; the Groq route's
outer catch returns HTTP 500 with the raw cause message (or "Groq route
failed"), the Gemini generate phase likewise (or "Gemini route failed"),
and the model-listing helper records "ListModels fetch failed for
<version>: <cause>".  Each site issues its call once, with no retry. -/
theorem C5_transport_failure :
    (∀ pr m, aiReply pr (FetchOut.thrown m)
        = Except.error ("Failed to connect to " ++ pr ++ ": " ++ m.getD "Network error"))
    ∧ (∀ p q key m, promptOkStr p = some q → keyPresent key = true →
        groqRoute (ReqBody.ok p) key (FetchOut.thrown m)
          = (errResp 500 (m.getD "Groq route failed"), [CallTag.groqChat]))
    ∧ (∀ v b m, geminiGen v b (FetchOut.thrown m)
        = errResp 500 (m.getD "Gemini route failed"))
    ∧ (∀ ver m, listModels ver (FetchOut.thrown m)
        = LRes.mk [] (some ("ListModels fetch failed for " ++ ver ++ ": " ++ errStr m))) := by
  refine ⟨fun pr m => rfl, ?_, fun v b m => rfl, fun ver m => rfl⟩
  intro p q key m hp hk
  simp [groqRoute, groqUpstream, hp, hk]

/-- Claim C5 witness: the Groq route surfaces a concrete transport cause
unwrapped, and the dispatcher wraps one. -/
theorem C5_transport_failure_witness :
    aiReply "groq" (FetchOut.thrown (some "connect ECONNREFUSED"))
      = Except.error ("Failed to connect to groq: "
          ++ (some "connect ECONNREFUSED").getD "Network error")
    ∧ groqRoute (ReqBody.ok (some (JVal.jstr "hi"))) (some "k")
        (FetchOut.thrown (some "connect ECONNREFUSED"))
      = (errResp 500 ((some "connect ECONNREFUSED").getD "Groq route failed"),
         [CallTag.groqChat]) :=
  ⟨C5_transport_failure.1 "groq" (some "connect ECONNREFUSED"),
   C5_transport_failure.2.1 (some (JVal.jstr "hi")) "hi" (some "k")
     (some "connect ECONNREFUSED") rfl rfl⟩

/-- Claim C5 counterexample: at the Groq route call site, a connection
refusal produces the bare cause "connect ECONNREFUSED" as the error
message, which is not of the form "Failed to connect to <provider>:
<cause>" (it does not even contain "Failed to connect"). -/
theorem C5_counterexample :
    errMsgIs (groqRoute (ReqBody.ok (some (JVal.jstr "hi"))) (some "k")
        (FetchOut.thrown (some "connect ECONNREFUSED"))) "connect ECONNREFUSED" = true
    ∧ strContains "connect ECONNREFUSED" "Failed to connect" = false :=
  ⟨rfl, by decide⟩

/-- Claim C6 as amended: with a valid prompt and a missing credential,
each handler returns HTTP 500 without issuing any outbound call; the Groq
body is exactly `error: "GROQ_API_KEY not configured"`, while the Gemini
body is `error: "GEMINI_API_KEY is not configured on the server"` (not
the "<CREDENTIAL_NAME> not configured" shape). -/
theorem C6_missing_credential (p : Option JVal) (q : String) (key : Option String)
    (f lv1 lv1b gen : FetchOut)
    (hp : promptOkStr p = some q) (hk : keyPresent key = false) :
    groqRoute (ReqBody.ok p) key f = (errResp 500 "GROQ_API_KEY not configured", [])
    ∧ geminiRoute (ReqBody.ok p) key lv1 lv1b gen
      = (errResp 500 "GEMINI_API_KEY is not configured on the server", []) := by
  constructor
  · simp [groqRoute, hp, hk]
  · simp [geminiRoute, hp, hk]

/-- Claim C6 witness: both handlers at a concrete valid prompt with the
credential absent. -/
theorem C6_missing_credential_witness :
    groqRoute (ReqBody.ok (some (JVal.jstr "hi"))) none anyFetch
      = (errResp 500 "GROQ_API_KEY not configured", [])
    ∧ geminiRoute (ReqBody.ok (some (JVal.jstr "hi"))) none anyFetch anyFetch anyFetch
      = (errResp 500 "GEMINI_API_KEY is not configured on the server", []) :=
  C6_missing_credential (some (JVal.jstr "hi")) "hi" none
    anyFetch anyFetch anyFetch anyFetch rfl rfl

/-- Claim C6 counterexample: the Gemini handler's missing-credential body
is "GEMINI_API_KEY is not configured on the server", not the claimed
"GEMINI_API_KEY not configured". -/
theorem C6_counterexample :
    errMsgIs (geminiRoute (ReqBody.ok (some (JVal.jstr "hi"))) none
        anyFetch anyFetch anyFetch) "GEMINI_API_KEY is not configured on the server" = true
    ∧ errMsgIs (geminiRoute (ReqBody.ok (some (JVal.jstr "hi"))) none
        anyFetch anyFetch anyFetch) "GEMINI_API_KEY not configured" = false
    ∧ (geminiRoute (ReqBody.ok (some (JVal.jstr "hi"))) none
        anyFetch anyFetch anyFetch).1.1 = 500 :=
  ⟨rfl, rfl, rfl⟩

/-- Claim C7 as amended: on a non-2xx status with a JSON-decoded body,
the Groq route checks error.message, then error, then the whole body, and
formats "Groq API Error (<status>): <message>"; the Gemini route checks
error.message, then a TOP-LEVEL message field, then the whole body, and
formats "Gemini API Error (<version>/<model> - <status>): <message>"; the
direct-client groqReply checks error.message, then error, then the
stringified body, and formats "Groq error (<status>): <message>". -/
theorem C7_api_error_format :
    (∀ st raw json, raw ≠ "" → resOk st = false →
        groqUpstream (FetchOut.resp st raw (some json))
          = errResp st ("Groq API Error (" ++ toString st ++ "): "
              ++ jsToString (groqErrVal json)))
    ∧ (∀ v b st raw json, raw ≠ "" → resOk st = false →
        geminiGen v b (FetchOut.resp st raw (some json))
          = errResp st ("Gemini API Error (" ++ v ++ "/" ++ b ++ " - " ++ toString st
              ++ "): " ++ jsToString (geminiErrVal json)))
    ∧ (∀ k st raw json, keyPresent k = true → raw ≠ "" → resOk st = false →
        groqReply k (FetchOut.resp st raw (some json))
          = Except.error ("Groq error (" ++ toString st ++ "): "
              ++ jsToString (groqReplyErrVal json))) := by
  refine ⟨?_, ?_, ?_⟩
  · intro st raw json hraw hst
    simp [groqUpstream, beq_eq_false_iff_ne.mpr hraw, hst]
  · intro v b st raw json hraw hst
    simp [geminiGen, beq_eq_false_iff_ne.mpr hraw, hst]
  · intro k st raw json hk hraw hst
    simp [groqReply, hk, beq_eq_false_iff_ne.mpr hraw, hst]

/-- Claim C7 witness: the three sites at status 401 with the body
`error: message: "bad key"`. -/
theorem C7_api_error_format_witness :
    groqUpstream (FetchOut.resp 401 "x" (some badKeyJson))
      = errResp 401 ("Groq API Error (" ++ toString 401 ++ "): "
          ++ jsToString (groqErrVal badKeyJson))
    ∧ geminiGen "v1" "m" (FetchOut.resp 401 "x" (some badKeyJson))
      = errResp 401 ("Gemini API Error (v1/m - " ++ toString 401 ++ "): "
          ++ jsToString (geminiErrVal badKeyJson))
    ∧ groqReply (some "k") (FetchOut.resp 401 "x" (some badKeyJson))
      = Except.error ("Groq error (" ++ toString 401 ++ "): "
          ++ jsToString (groqReplyErrVal badKeyJson)) := by
  refine ⟨C7_api_error_format.1 401 "x" badKeyJson (by decide) (by decide), ?g2,
          C7_api_error_format.2.2 (some "k") 401 "x" badKeyJson rfl (by decide) (by decide)⟩
  case g2 =>
    have h := C7_api_error_format.2.1 "v1" "m" 401 "x" badKeyJson (by decide) (by decide)
    simpa using h

/-- Claim C7 counterexample: the direct-client Groq variant formats a
non-2xx failure as "Groq error (401): bad key", which is not of the
claimed "<Provider> API Error (<http_status>): <message>" form. -/
theorem C7_counterexample :
    groqReply (some "k") (FetchOut.resp 401 "x" (some badKeyJson))
      = Except.error "Groq error (401): bad key"
    ∧ "Groq error (401): bad key" ≠ "Groq API Error (401): bad key" :=
  ⟨rfl, by decide⟩

/-- Claim C8: for every inbound request and every environment, each
handler's single response body is exactly one of the two envelopes — it
has an error field and no text field, or a text field and no error field;
the handlers are total, so no fault escapes them. -/
theorem C8_single_envelope (body : ReqBody) (key : Option String)
    (f lv1 lv1b gen : FetchOut) :
    envelopeOk (groqRoute body key f).1.2
    ∧ envelopeOk (geminiRoute body key lv1 lv1b gen).1.2 := by
  constructor
  · cases body with
    | badJson => exact envOk_errResp _ _
    | ok p =>
      cases hps : promptOkStr p with
      | none => simp only [groqRoute, hps]; exact envOk_errResp _ _
      | some q =>
        simp only [groqRoute, hps]
        split
        · exact envOk_errResp _ _
        · exact envOk_groqUpstream f
  · cases body with
    | badJson => exact envOk_errResp _ _
    | ok p =>
      cases hps : promptOkStr p with
      | none => simp only [geminiRoute, hps]; exact envOk_errResp _ _
      | some q =>
        simp only [geminiRoute, hps]
        split
        · exact envOk_errResp _ _
        · exact envOk_gphase2 _ _ _

/-- Claim C9: a valid prompt with a configured key and an upstream HTTP
200 whose body is `choices: [message: content: c]` for non-empty `c`
yields HTTP 200 with body `text: c, provider: "groq"`. -/
theorem C9_groq_roundtrip (p : Option JVal) (q : String) (key : Option String)
    (st : Nat) (raw c : String)
    (hp : promptOkStr p = some q) (hk : keyPresent key = true)
    (hraw : raw ≠ "") (hst : resOk st = true) (hc : c ≠ "") :
    groqRoute (ReqBody.ok p) key (FetchOut.resp st raw (some (stubChoices c)))
      = ((200, JVal.jobj [("text", JVal.jstr c), ("provider", JVal.jstr "groq")]),
         [CallTag.groqChat]) := by
  have hcb : (c == "") = false := beq_eq_false_iff_ne.mpr hc
  have htext : groqText (stubChoices c) = JVal.jstr c := by
    show jsOrElse (some (JVal.jstr c)) (JVal.jstr "") = JVal.jstr c
    simp [jsOrElse, jsTruthy, hcb]
  simp [groqRoute, groqUpstream, groqSuccess, hp, hk,
    beq_eq_false_iff_ne.mpr hraw, hst, htext, jsTruthy, hcb]

/-- Claim C9 witness: the spec's stub round-trip — prompt "What courses
are offered?" and stub content "Nilgiri College offers..." produce
exactly that text with provider "groq". -/
theorem C9_groq_roundtrip_witness :
    groqRoute (ReqBody.ok (some (JVal.jstr "What courses are offered?"))) (some "k")
        (FetchOut.resp 200 "x" (some (stubChoices "Nilgiri College offers...")))
      = ((200, JVal.jobj [("text", JVal.jstr "Nilgiri College offers..."),
                          ("provider", JVal.jstr "groq")]), [CallTag.groqChat]) :=
  C9_groq_roundtrip (some (JVal.jstr "What courses are offered?"))
    "What courses are offered?" (some "k") 200 "x" "Nilgiri College offers..."
    rfl rfl (by decide) (by decide) (by decide)

/-- Claim C10: a present, well-typed empty-string prompt is rejected by
both handlers with HTTP 400 and body `error: "Missing prompt"`, through
the same branch (and with the same response) as an absent or non-string
prompt, before any outbound call. -/
theorem C10_empty_prompt (key : Option String) (f lv1 lv1b gen : FetchOut) :
    groqRoute (ReqBody.ok (some (JVal.jstr ""))) key f
      = (errResp 400 "Missing prompt", [])
    ∧ geminiRoute (ReqBody.ok (some (JVal.jstr ""))) key lv1 lv1b gen
      = (errResp 400 "Missing prompt", [])
    ∧ groqRoute (ReqBody.ok none) key f = (errResp 400 "Missing prompt", [])
    ∧ groqRoute (ReqBody.ok (some (JVal.jnum 5))) key f
      = (errResp 400 "Missing prompt", []) :=
  ⟨rfl, rfl, rfl, rfl⟩

end EduNex
